import Mathlib

/-!
Verification of the scythe recursive scatter/gather engine
(src/scythe/scatter_gather.py and src/scythe/utils/results.py).

Shallow embedding conventions:
- A pandas DataFrame is a list of rows (row type is a type parameter);
  pd.concat along axis 0 is list append / flatten.
- A dict[str, DataFrame] is an association list keyed by table name, in
  insertion order; key lookup is List.lookup.
- Blob storage (parquet upload / fetch) is modeled as the identity: an
  uploaded table is recorded under its key and fetched back unchanged, so
  the uris of a ScatterGatherResult map directly to table contents.
- Exceptions are modeled with Except String; the task engine
  gathering with return_exceptions=True is the list of Except values.
- The Hatchet recursion (the scatter_gather task re-dispatching itself) is
  modeled as a fuel-indexed evaluator; running out of fuel returns none.
-/

namespace Scythe

/-- A pandas DataFrame: a list of rows. -/
abbrev DataFrame (ρ : Type) : Type := List ρ

/-- A dict[str, pd.DataFrame]: association list in insertion order. -/
abbrev DFDict (ρ : Type) : Type := List (String × DataFrame ρ)

/-- utils/results.py, transpose_dataframe_dict (lines 31-41):
for every key occurring in any of the input dicts (first-occurrence order,
modeling the set of all keys), concatenate the dataframes of the dicts that
contain that key, in input-list order. -/
def transpose_dataframe_dict {ρ : Type} (dataframe_results : List (DFDict ρ)) : DFDict ρ :=
  let all_keys := ((dataframe_results.map fun d => d.map Prod.fst).flatten).dedup
  all_keys.map fun key =>
    (key, (dataframe_results.filterMap fun df_dict => List.lookup key df_dict).flatten)

/-- base.py, ExperimentOutputSpec (line 259): the output of a leaf workflow,
a bundle of named dataframes. -/
structure ExperimentOutputSpec (ρ : Type) where
  dataframes : DFDict ρ
deriving DecidableEq

/-- scatter_gather.py, combine_experiment_outputs (lines 338-348). -/
def combine_experiment_outputs {ρ : Type} (experiment_outputs : List (ExperimentOutputSpec ρ)) :
    ExperimentOutputSpec ρ :=
  { dataframes := transpose_dataframe_dict (experiment_outputs.map fun output => output.dataframes) }

/-- Python list slicing l[start::step] for step ≥ 1: the elements at
positions start, start+step, start+2*step, ... (scatter_gather.py line 181
uses specs[branch_ix :: factor]). -/
def sliceStep {α : Type} : List α → Nat → Nat → List α
  | [], _, _ => []
  | x :: xs, 0, step => x :: sliceStep xs (step - 1) step
  | _ :: xs, start + 1, step => sliceStep xs start step

/-! ### Recursion specs and payloads (scatter_gather.py) -/

/-- scatter_gather.py, RecursionSpec (lines 30-46): one (factor, offset)
coordinate of the recursion path. Validated values satisfy factor ≥ 1 and
offset < factor, so the fields are represented as naturals. -/
structure RecursionSpec where
  factor : Nat
  offset : Option Nat
deriving DecidableEq

/-- Pydantic construction of RecursionSpec from raw input values
(scatter_gather.py lines 30-46). The raw dict may omit a key (outer none)
or bind it to None (inner none); raw ints are modeled as Int. The
model_validator(mode="before") validate_offset_less_than_factor runs first,
on the raw values, reading values["offset"] and values["factor"]
unconditionally in that order (a missing key is a KeyError); field
validation (factor required with ge=1, offset ge=0 with default None) runs
afterwards. -/
def mkRecursionSpec (factorVal : Option Int) (offsetVal : Option (Option Int)) :
    Except String RecursionSpec :=
  match offsetVal with
  | none => Except.error "KeyError: offset"
  | some none =>
    match factorVal with
    | none => Except.error "ValidationError: factor: Field required"
    | some f =>
      if f < 1 then Except.error "ValidationError: factor: ge=1"
      else Except.ok { factor := f.toNat, offset := none }
  | some (some o) =>
    match factorVal with
    | none => Except.error "KeyError: factor"
    | some f =>
      if o ≥ f then Except.error ("OFFSET:" ++ toString o ++ ">=FACTOR:" ++ toString f)
      else if f < 1 then Except.error "ValidationError: factor: ge=1"
      else if o < 0 then Except.error "ValidationError: offset: ge=0"
      else Except.ok { factor := f.toNat, offset := some o.toNat }

/-- scatter_gather.py, RecursionMap (lines 49-77): recursion position and
parameters. Validated values satisfy factor ≥ 1 and 0 ≤ max_depth ≤ 10. -/
structure RecursionMap where
  path : Option (List RecursionSpec)
  factor : Nat
  max_depth : Nat
deriving DecidableEq

/-- scatter_gather.py, ScatterGatherInput (lines 88-234). The specs list
stands for the parquet payload behind specs_path (upload plus cached fetch
round-trips it unchanged); task_name and storage settings are dropped as
plumbing. save_errors defaults to False (line 100). -/
structure ScatterGatherInput (σ : Type) where
  specs : List σ
  recursion_map : RecursionMap
  save_errors : Bool := false
deriving DecidableEq

/-- Depth of a payload: length of its recursion path, an absent path being
the root (depth 0). -/
def pathLen {σ : Type} (p : ScatterGatherInput σ) : Nat :=
  (p.recursion_map.path.getD []).length

/-- scatter_gather.py, ScatterGatherInput.is_base_case (lines 225-234). -/
def is_base_case {σ : Type} (p : ScatterGatherInput σ) : Bool :=
  let too_few_specs := decide (p.specs.length ≤ p.recursion_map.factor)
  let past_max_depth :=
    (match p.recursion_map.path with
     | some path => decide (path.length ≥ p.recursion_map.max_depth)
     | none => false)
    || (p.recursion_map.max_depth == 0)
  too_few_specs || past_max_depth

/-- scatter_gather.py, ScatterGatherInput.create_recursion_payloads
(lines 165-223), child payload construction: for branch_ix in
range(factor), the child path is the parent path (or []) with
RecursionSpec(factor, offset=branch_ix) appended (the validator passes
since branch_ix < factor), the child specs are specs[branch_ix::factor]
(re-uploaded and referenced, modeled as the list itself). The constructor
call at lines 199-205 passes no save_errors, so every child gets the field
default False. -/
def create_recursion_payloads {σ : Type} (p : ScatterGatherInput σ) :
    List (ScatterGatherInput σ) :=
  (List.range p.recursion_map.factor).map fun branch_ix =>
    { specs := sliceStep p.specs branch_ix p.recursion_map.factor
      recursion_map :=
        { path := some ((p.recursion_map.path.getD [])
            ++ [{ factor := p.recursion_map.factor, offset := some branch_ix }])
          factor := p.recursion_map.factor
          max_depth := p.recursion_map.max_depth }
      save_errors := false }

/-! ### sift_results (scatter_gather.py lines 306-335) -/

/-- One row of the error DataFrame built by sift_results: the MultiIndex
entry (the identity columns of the failed spec, via model_dump) plus the
"missing" and "msg" columns. -/
structure ErrorRow (ι : Type) where
  idx : ι
  missing : Bool
  msg : String
deriving DecidableEq

/-- The comprehension [spec_data[i] for i, r in enumerate(results) if
isinstance(r, BaseException)] (scatter_gather.py lines 321-323): walk the
two lists in positional lockstep collecting the spec at each failed index;
an error result beyond the end of spec_data is an IndexError in Python. -/
def collect_error_specs {ι α : Type} : List ι → List (Except String α) → Except String (List ι)
  | _, [] => Except.ok []
  | s :: ss, r :: rs =>
    match r with
    | Except.error _ => (collect_error_specs ss rs).map fun es => s :: es
    | Except.ok _ => collect_error_specs ss rs
  | [], r :: rs =>
    match r with
    | Except.error _ => Except.error "IndexError: list index out of range"
    | Except.ok _ => collect_error_specs ([] : List ι) rs

/-- scatter_gather.py, sift_results (lines 306-335). Splits results into
the non-exception values and, when at least one result is an exception, an
error DataFrame indexed by the failed specs. The DataFrame is built as
pd.DataFrame({"missing": [False], "msg": error_msgs}, index=...): the
"missing" column is the fixed one-element list [False], and pandas
requires every column array of a dict-of-lists to have one common length,
so the construction succeeds only when error_msgs has exactly one entry
and otherwise raises ValueError. -/
def sift_results {ι α : Type} (spec_data : List ι) (results : List (Except String α)) :
    Except String (List α × Option (List (ErrorRow ι))) :=
  let safe_results := results.filterMap fun r =>
    match r with
    | Except.ok v => some v
    | Except.error _ => none
  match collect_error_specs spec_data results with
  | Except.error e => Except.error e
  | Except.ok error_specs =>
    if error_specs.isEmpty then
      Except.ok (safe_results, none)
    else
      let error_msgs := results.filterMap fun r =>
        match r with
        | Except.error m => some m
        | Except.ok _ => none
      if error_msgs.length = 1 then
        Except.ok (safe_results,
          some (List.zipWith (fun s m => { idx := s, missing := false, msg := m })
            error_specs error_msgs))
      else
        Except.error "ValueError: All arrays must be of the same length"

/-! ### The scatter_gather task pipeline -/

/-- A row of a result table. All tables live in one pandas universe; in the
typed model a row is either experiment data (β) or an error-table row
produced by sift_results over leaf specs (σ). -/
inductive Row (σ β : Type) where
  | data : β → Row σ β
  | err : ErrorRow σ → Row σ β
deriving DecidableEq

/-- scatter_gather.py, GatheredExperimentRuns (lines 80-85). -/
structure GatheredExperimentRuns (σ β : Type) where
  success : ExperimentOutputSpec (Row σ β)
  errors : Option (DataFrame (Row σ β))
deriving DecidableEq

/-- scatter_gather.py, ScatterGatherInput.run_experiments (lines 141-163):
dispatch every spec through the task engine (modeled by the oracle run,
one Except per spec, exceptions isolated), sift, combine the successes.
The rows of the sift error DataFrame enter the common row universe as Row.err. -/
def run_experiments {σ β : Type} (run : σ → Except String (ExperimentOutputSpec (Row σ β)))
    (p : ScatterGatherInput σ) : Except String (GatheredExperimentRuns σ β) := do
  let specs := p.specs
  let results := specs.map run
  let (safe_results, error_df) ← sift_results specs results
  let result := combine_experiment_outputs safe_results
  return { success := result, errors := error_df.map fun rows => rows.map Row.err }

/-- Lowercased character-list containment, modeling the Python expression
"error" in key.lower() (utils/results.py line 76). listSub pat s checks
that pat occurs as a contiguous run in s. -/
def listStartsWith : List Char → List Char → Bool
  | [], _ => true
  | _ :: _, [] => false
  | p :: ps, c :: cs => p == c && listStartsWith ps cs

/-- Contiguous-substring test on character lists. -/
def listSub (pat : List Char) : List Char → Bool
  | [] => pat.isEmpty
  | c :: cs => listStartsWith pat (c :: cs) || listSub pat cs

/-- Python: "error" in key.lower(). -/
def containsErrorStr (key : String) : Bool :=
  listSub "error".data (key.data.map Char.toLower)

/-- utils/results.py, save_and_upload_parquets (lines 64-83): write each
collected table to the blob store under its key and return the uri map,
except that a table whose key contains "error" is skipped (silently not
uploaded) unless save_errors is true. The blob round-trip is the identity,
so the returned uri map carries the table contents themselves. -/
def save_and_upload_parquets {ρ : Type} (collected_dfs : DFDict ρ) (save_errors : Bool) :
    DFDict ρ :=
  collected_dfs.filter fun kv => !(containsErrorStr kv.1 && !save_errors)

/-- scatter_gather.py, ScatterGatherResult (lines 237-255): the published
uri map of one node; uris carry the fetched table contents (blob identity). -/
structure ScatterGatherResult (σ β : Type) where
  uris : DFDict (Row σ β)
deriving DecidableEq

/-- scatter_gather.py, ScatterGatherResult.to_gathered_experiment_runs
(lines 242-255): fetch every uri back into a dataframe dict; errors is
always None (line 254). -/
def ScatterGatherResult.to_gathered_experiment_runs {σ β : Type}
    (r : ScatterGatherResult σ β) : GatheredExperimentRuns σ β :=
  { success := { dataframes := r.uris }, errors := none }

/-- The merge step of the scatter_gather task (scatter_gather.py lines
274-284): transpose the success dataframe dicts; if any output carries an
error DataFrame, concatenate those and append them to (or create) the
"errors" table. -/
def merge_outputs {σ β : Type} (experiment_outputs : List (GatheredExperimentRuns σ β)) :
    DFDict (Row σ β) :=
  let dfs := experiment_outputs.map fun r => r.success.dataframes
  let errors := experiment_outputs.filterMap fun r => r.errors
  let transposed_dfs := transpose_dataframe_dict dfs
  if errors.isEmpty then transposed_dfs
  else
    let error_dfs := errors.flatten
    if (transposed_dfs.map Prod.fst).contains "errors" then
      transposed_dfs.map fun kv =>
        if kv.1 == "errors" then (kv.1, kv.2 ++ error_dfs) else kv
    else
      transposed_dfs ++ [("errors", error_dfs)]

/-- Gathering of the child workflow runs (aio_run_many with
return_exceptions=True, scatter_gather.py line 270): every child evaluates;
a child exception is its Except.error value. The outer none is the fuel
bookkeeping of the model and never occurs for sufficient fuel. -/
def runChildren {α γ : Type} (f : α → Option γ) : List α → Option (List γ)
  | [] => some []
  | a :: as =>
    match f a, runChildren f as with
    | some r, some rs => some (r :: rs)
    | _, _ => none

/-- scatter_gather.py, the scatter_gather task (lines 258-299), as a
fuel-indexed evaluator. A base-case node runs its experiments; an internal
node dispatches its recursion payloads, gathers them with exception
isolation, sifts (the sifted error_df of failed children is computed and
then never used, exactly as at line 271), and reconstructs gathered runs
from the surviving children. Either way the outputs are merged and
published through save_and_upload_parquets with the save_errors of the node. -/
def scatter_gather {σ β : Type} (run : σ → Except String (ExperimentOutputSpec (Row σ β))) :
    Nat → ScatterGatherInput σ → Option (Except String (ScatterGatherResult σ β))
  | 0, _ => none
  | fuel + 1, p =>
    let outsE : Option (Except String (List (GatheredExperimentRuns σ β))) :=
      if is_base_case p then
        some ((run_experiments run p).map fun g => [g])
      else
        let children := create_recursion_payloads p
        match runChildren (fun c => scatter_gather run fuel c) children with
        | none => none
        | some results =>
          some ((sift_results children results).map fun sifted =>
            sifted.1.map ScatterGatherResult.to_gathered_experiment_runs)
    match outsE with
    | none => none
    | some (Except.error e) => some (Except.error e)
    | some (Except.ok experiment_outputs) =>
      some (Except.ok
        { uris := save_and_upload_parquets (merge_outputs experiment_outputs) p.save_errors })

/-! ### Concrete instances used by counterexamples and witnesses -/

/-- A concrete leaf runner over Nat specs: spec 1 raises "boom", every
other spec succeeds with a one-row table named "t". -/
def runC1 : Nat → Except String (ExperimentOutputSpec (Row Nat Nat)) := fun s =>
  if s = 1 then Except.error "boom" else Except.ok { dataframes := [("t", [Row.data s])] }

/-- A root payload: two specs, branching factor 1, max_depth 1, with error
persistence enabled at the root. -/
def rootC1 : ScatterGatherInput Nat :=
  { specs := [0, 1]
    recursion_map := { path := none, factor := 1, max_depth := 1 }
    save_errors := true }

/-- The single child payload that rootC1 produces: all the specs, path of
length 1, and save_errors back at its default False because
create_recursion_payloads does not forward the flag. -/
def childC1 : ScatterGatherInput Nat :=
  { specs := [0, 1]
    recursion_map :=
      { path := some [{ factor := 1, offset := some 0 }], factor := 1, max_depth := 1 }
    save_errors := false }

/-- A non-leaf payload with 10 specs and branching factor 3 (the worked
example of the spec). -/
def pEx10x3 : ScatterGatherInput Nat :=
  { specs := [0, 1, 2, 3, 4, 5, 6, 7, 8, 9]
    recursion_map := { path := none, factor := 3, max_depth := 2 }
    save_errors := false }

/-- A leaf runner that always succeeds with no tables. -/
def runTriv : Nat → Except String (ExperimentOutputSpec (Row Nat Nat)) := fun _ =>
  Except.ok { dataframes := [] }

/-- A single gathered output carrying one error row, for exercising the
merge step. -/
def outsEx : List (GatheredExperimentRuns Nat Nat) :=
  [{ success := { dataframes := [("t", [Row.data 2])] }
     errors := some [Row.err { idx := 7, missing := false, msg := "m" }] }]

/-! ### Association-list lookup lemmas -/

theorem lookup_cons {ρ : Type} (k : String) (v : DataFrame ρ) (rest : DFDict ρ) (a : String) :
    List.lookup a ((k, v) :: rest) = if a = k then some v else List.lookup a rest := by
  by_cases h : a = k
  · simp [List.lookup, h]
  · have hb : (a == k) = false := by simpa using h
    simp [List.lookup, hb, h]

theorem lookup_map_keyed {ρ : Type} (keys : List String) (v : String → DataFrame ρ) (k : String) :
    List.lookup k (keys.map fun key => (key, v key)) = if k ∈ keys then some (v k) else none := by
  induction keys with
  | nil => simp
  | cons k' rest ih =>
    simp only [List.map_cons, lookup_cons, ih, List.mem_cons]
    by_cases h : k = k' <;> simp [h]

theorem lookup_isSome_iff_mem_keys {ρ : Type} (d : DFDict ρ) (k : String) :
    (List.lookup k d).isSome = true ↔ k ∈ d.map Prod.fst := by
  induction d with
  | nil => simp
  | cons kv rest ih =>
    obtain ⟨k', v⟩ := kv
    rw [lookup_cons]
    by_cases h : k = k' <;> simp [h, ih]

/-- Content of a lookup in a transposed dict: none when no input dict has the
key, otherwise the concatenation of the entries of the dicts that do. -/
theorem lookup_transpose {ρ : Type} (ds : List (DFDict ρ)) (k : String) :
    List.lookup k (transpose_dataframe_dict ds) =
      if (ds.filterMap fun d => List.lookup k d).isEmpty then none
      else some (ds.filterMap fun d => List.lookup k d).flatten := by
  unfold transpose_dataframe_dict
  rw [lookup_map_keyed]
  have hmem : k ∈ ((ds.map fun d => d.map Prod.fst).flatten).dedup ↔
      ¬ (ds.filterMap fun d => List.lookup k d) = [] := by
    rw [List.mem_dedup, List.mem_flatten]
    constructor
    · rintro ⟨l, hl, hkl⟩ hnil
      rw [List.filterMap_eq_nil_iff] at hnil
      obtain ⟨d, hd, rfl⟩ := List.mem_map.mp hl
      have := (lookup_isSome_iff_mem_keys d k).mpr hkl
      rw [hnil d hd] at this
      simp at this
    · intro hne
      rw [List.filterMap_eq_nil_iff] at hne
      push_neg at hne
      obtain ⟨d, hd, hlk⟩ := hne
      refine ⟨d.map Prod.fst, List.mem_map_of_mem _ hd, ?_⟩
      rw [← lookup_isSome_iff_mem_keys]
      simpa [Option.isSome_iff_ne_none] using hlk
  by_cases hc : (ds.filterMap fun d => List.lookup k d) = []
  · simp [hc, hmem]
  · simp [hc, hmem, List.isEmpty_iff]

/-! ### Round-robin slicing lemmas -/

/-- Positional characterization of Python slicing: element j of l[i::step]
is element i + step*j of l. -/
theorem sliceStep_getElem? {α : Type} (l : List α) (i step j : Nat) (hstep : 1 ≤ step) :
    (sliceStep l i step)[j]? = l[i + step * j]? := by
  induction l generalizing i j with
  | nil => simp [sliceStep]
  | cons x xs ih =>
    match i with
    | 0 =>
      match j with
      | 0 => simp [sliceStep]
      | j + 1 =>
        have harith : 0 + step * (j + 1) = (step - 1 + step * j) + 1 := by
          rw [Nat.mul_succ]; omega
        rw [harith]
        show (x :: sliceStep xs (step - 1) step)[j + 1]? = (x :: xs)[(step - 1 + step * j) + 1]?
        rw [List.getElem?_cons_succ, List.getElem?_cons_succ]
        exact ih (step - 1) j
    | i + 1 =>
      have harith : (i + 1) + step * j = (i + step * j) + 1 := by omega
      rw [harith]
      show (sliceStep xs i step)[j]? = (x :: xs)[(i + step * j) + 1]?
      rw [List.getElem?_cons_succ]
      exact ih i j

/-- The round-robin slices l[0::f], l[1::f], ..., l[f-1::f] partition l as a
multiset (f = m+1 ≥ 1). -/
theorem sliceStep_partition {α : Type} (l : List α) (m : Nat) :
    ((List.range (m + 1)).map fun i => (sliceStep l i (m + 1) : Multiset α)).sum
      = (l : Multiset α) := by
  induction l with
  | nil => simp [sliceStep]
  | cons x xs ih =>
    have hsplit : ((List.range (m + 1)).map fun i => (sliceStep xs i (m + 1) : Multiset α)).sum
        = ((List.range m).map fun i => (sliceStep xs i (m + 1) : Multiset α)).sum
          + (sliceStep xs m (m + 1) : Multiset α) :=
      List.sum_range_succ _ m
    have hfront : List.range (m + 1) = 0 :: (List.range m).map Nat.succ :=
      List.range_succ_eq_map m
    rw [hfront, List.map_cons, List.sum_cons, List.map_map]
    have hzero : (sliceStep (x :: xs) 0 (m + 1) : Multiset α)
        = x ::ₘ (sliceStep xs m (m + 1) : Multiset α) := by
      show ((x :: sliceStep xs (m + 1 - 1) (m + 1) : List α) : Multiset α) = _
      rw [← Multiset.cons_coe]
      norm_num
    have hsucc : ((fun i => (sliceStep (x :: xs) i (m + 1) : Multiset α)) ∘ Nat.succ)
        = fun i => (sliceStep xs i (m + 1) : Multiset α) := by
      funext i
      rfl
    rw [hzero, hsucc, Multiset.cons_add, ← Multiset.cons_coe]
    congr 1
    rw [add_comm, ← hsplit]
    exact ih


/-! ### Claim C3: the base-case condition -/

/-- C3: For every ScatterGatherInput batch, is_base_case is true if and
only if len(specs) <= factor, or the recursion path length (depth)
>= max_depth, or max_depth == 0; in particular max_depth == 0 forces a
leaf even at the root regardless of spec count. -/
theorem c3_is_base_case_iff {σ : Type} (p : ScatterGatherInput σ) :
    is_base_case p = true ↔
      (p.specs.length ≤ p.recursion_map.factor
        ∨ pathLen p ≥ p.recursion_map.max_depth
        ∨ p.recursion_map.max_depth = 0) := by
  unfold is_base_case pathLen
  cases hp : p.recursion_map.path with
  | none =>
    simp only [hp, Option.getD_none, List.length_nil, Bool.or_eq_true, decide_eq_true_eq,
      Bool.false_or, beq_iff_eq]
    try omega
  | some l =>
    simp only [hp, Option.getD_some, Bool.or_eq_true, decide_eq_true_eq, beq_iff_eq]
    try omega

/-! ### Claim C4: round-robin split shape -/

/-- C4: For every non-leaf batch with branching factor f,
create_recursion_payloads produces exactly f child payloads, and the spec
list of child i holds the parent specs at positions i, i+f, i+2f, ... in that
relative order. -/
theorem c4_round_robin_split {σ : Type} (p : ScatterGatherInput σ) (i j : Nat)
    (hf : 1 ≤ p.recursion_map.factor) (_hleaf : is_base_case p = false)
    (hi : i < p.recursion_map.factor) :
    (create_recursion_payloads p).length = p.recursion_map.factor
    ∧ (create_recursion_payloads p)[i]? = some
        { specs := sliceStep p.specs i p.recursion_map.factor
          recursion_map :=
            { path := some ((p.recursion_map.path.getD [])
                ++ [{ factor := p.recursion_map.factor, offset := some i }])
              factor := p.recursion_map.factor
              max_depth := p.recursion_map.max_depth }
          save_errors := false }
    ∧ (sliceStep p.specs i p.recursion_map.factor)[j]?
        = p.specs[i + p.recursion_map.factor * j]? := by
  refine ⟨?_, ?_, sliceStep_getElem? p.specs i p.recursion_map.factor j hf⟩
  · simp [create_recursion_payloads]
  · simp [create_recursion_payloads, List.getElem?_map, List.getElem?_range, hi]

/-- Witness for C4 at the worked example of the spec: 10 specs, factor 3,
child 1, position 2 (spec index 1 + 3*2 = 7). -/
theorem c4_round_robin_split_witness :
    (1 ≤ pEx10x3.recursion_map.factor) ∧ (is_base_case pEx10x3 = false)
    ∧ ((create_recursion_payloads pEx10x3).length = pEx10x3.recursion_map.factor
      ∧ (create_recursion_payloads pEx10x3)[1]? = some
          { specs := sliceStep pEx10x3.specs 1 pEx10x3.recursion_map.factor
            recursion_map :=
              { path := some ((pEx10x3.recursion_map.path.getD [])
                  ++ [{ factor := pEx10x3.recursion_map.factor, offset := some 1 }])
                factor := pEx10x3.recursion_map.factor
                max_depth := pEx10x3.recursion_map.max_depth }
            save_errors := false }
      ∧ (sliceStep pEx10x3.specs 1 pEx10x3.recursion_map.factor)[2]?
          = pEx10x3.specs[1 + pEx10x3.recursion_map.factor * 2]?) :=
  ⟨by decide, by decide, c4_round_robin_split pEx10x3 1 2 (by decide) (by decide) (by decide)⟩

/-! ### Claim C5: the split is a multiset partition -/

/-- C5: For every spec list and every branching factor f >= 1, the
round-robin split is a set partition: the multiset union of all f
children spec lists reproduces the parent spec list exactly as a
multiset, for any spec count, including counts not divisible by f and
counts smaller than f (a child with zero specs is produced without error). -/
theorem c5_split_is_partition {σ : Type} (p : ScatterGatherInput σ)
    (hf : 1 ≤ p.recursion_map.factor) :
    ((create_recursion_payloads p).map fun c => (c.specs : Multiset σ)).sum
      = (p.specs : Multiset σ) := by
  obtain ⟨m, hm⟩ : ∃ m, p.recursion_map.factor = m + 1 :=
    ⟨p.recursion_map.factor - 1, by omega⟩
  unfold create_recursion_payloads
  rw [hm, List.map_map]
  have hfun : ((fun c : ScatterGatherInput σ => (c.specs : Multiset σ)) ∘ fun branch_ix =>
      ({ specs := sliceStep p.specs branch_ix (m + 1)
         recursion_map :=
           { path := some ((p.recursion_map.path.getD [])
               ++ [{ factor := m + 1, offset := some branch_ix }])
             factor := m + 1
             max_depth := p.recursion_map.max_depth }
         save_errors := false } : ScatterGatherInput σ))
      = fun i => (sliceStep p.specs i (m + 1) : Multiset σ) := by
    funext i
    rfl
  rw [hfun]
  exact sliceStep_partition p.specs m

/-- Witness for C5: 10 specs split by factor 3 recombine to the original
multiset. -/
theorem c5_split_is_partition_witness :
    ((create_recursion_payloads pEx10x3).map fun c => (c.specs : Multiset Nat)).sum
      = (pEx10x3.specs : Multiset Nat) :=
  c5_split_is_partition pEx10x3 (by decide)

/-! ### Claim C9: offset/factor validation -/

/-- C9: For every factor f >= 1 and every non-None offset o with o >= f,
constructing a RecursionSpec(factor=f, offset=o) raises a validation error
(rejected at construction, immediately); construction succeeds when
0 <= o < f (the offset field is declared with ge=0). -/
theorem c9_offset_validation (f o : Int) (hf : 1 ≤ f) :
    (f ≤ o → mkRecursionSpec (some f) (some (some o))
      = Except.error ("OFFSET:" ++ toString o ++ ">=FACTOR:" ++ toString f))
    ∧ (0 ≤ o → o < f → mkRecursionSpec (some f) (some (some o))
      = Except.ok { factor := f.toNat, offset := some o.toNat }) := by
  constructor
  · intro h
    simp only [mkRecursionSpec]
    rw [if_pos h]
  · intro ho hlt
    simp only [mkRecursionSpec]
    rw [if_neg (by omega), if_neg (by omega), if_neg (by omega)]

/-- Witness for C9: factor 2 rejects offset 5, factor 3 accepts offset 1. -/
theorem c9_offset_validation_witness :
    mkRecursionSpec (some 2) (some (some 5)) = Except.error "OFFSET:5>=FACTOR:2"
    ∧ mkRecursionSpec (some 3) (some (some 1))
      = Except.ok { factor := 3, offset := some 1 } :=
  ⟨(c9_offset_validation 2 5 (by decide)).1 (by decide),
   (c9_offset_validation 3 1 (by decide)).2 (by decide) (by decide)⟩

/-! ### Claim C10: omitted offset key -/

/-- C10: For every construction of a RecursionSpec from input data that
omits the offset key entirely, validation fails (the before-mode validator
reads values["offset"] unconditionally, raising KeyError before the
declared default applies); the declared default offset=None is reachable
only by passing offset explicitly as None. -/
theorem c10_missing_offset_key :
    (∀ factorVal : Option Int,
      mkRecursionSpec factorVal none = Except.error "KeyError: offset")
    ∧ (∀ f : Int, 1 ≤ f →
      mkRecursionSpec (some f) (some none)
        = Except.ok { factor := f.toNat, offset := none }) := by
  constructor
  · intro factorVal
    rfl
  · intro f hf
    simp only [mkRecursionSpec]
    rw [if_neg (by omega)]

/-- Witness for C10: omitting the offset key fails even with a valid
factor, while an explicit None offset succeeds. -/
theorem c10_missing_offset_key_witness :
    mkRecursionSpec (some 4) none = Except.error "KeyError: offset"
    ∧ mkRecursionSpec (some 4) (some none) = Except.ok { factor := 4, offset := none } :=
  ⟨c10_missing_offset_key.1 (some 4), c10_missing_offset_key.2 4 (by decide)⟩

/-! ### Claim C2: sift_results error-table shape (code bug for k >= 2) -/

/-- C2 (code bug evidence): with two failed results, sift_results does not
return a two-row error table; pandas rejects the DataFrame construction
because the "missing" column is the fixed one-element list [False] while
the "msg" column has two entries, so the call raises ValueError. -/
theorem c2_two_failures_raise :
    sift_results ([10, 20] : List Nat)
        ([Except.error "e1", Except.error "e2"] : List (Except String Nat))
      = Except.error "ValueError: All arrays must be of the same length" := by
  rfl

/-! ### Claim C8: the error table is None iff there are no failures -/

/-- The collected error specs are empty exactly when no result is an
exception. -/
theorem collect_ok_iff_nil {ι α : Type} (results : List (Except String α)) :
    ∀ (specs : List ι) (es : List ι), collect_error_specs specs results = Except.ok es →
      (es = [] ↔ ∀ r ∈ results, ∀ m, r ≠ Except.error m) := by
  induction results with
  | nil =>
    intro specs es hcol
    cases specs <;> simp [collect_error_specs] at hcol <;> simp [hcol]
  | cons r rs ih =>
    intro specs es hcol
    cases specs with
    | nil =>
      cases r with
      | error m => simp [collect_error_specs] at hcol
      | ok v =>
        simp only [collect_error_specs] at hcol
        rw [ih [] es hcol]
        simp
    | cons s ss =>
      cases r with
      | error m =>
        simp only [collect_error_specs] at hcol
        rcases hrec : collect_error_specs ss rs with e' | es'
        · rw [hrec] at hcol
          simp [Except.map] at hcol
        · rw [hrec] at hcol
          simp only [Except.map] at hcol
          have hes : es = s :: es' := by
            cases hcol
            rfl
          subst hes
          constructor
          · intro habs
            cases habs
          · intro hall
            exact absurd rfl (hall (Except.error m) (by simp) m)
      | ok v =>
        simp only [collect_error_specs] at hcol
        rw [ih ss es hcol]
        simp

/-- C8: For every call of sift_results, the returned error table is absent
entirely (None, not an empty table) if and only if none of the results is
an exception. -/
theorem c8_error_table_none_iff {ι α : Type} (spec_data : List ι)
    (results : List (Except String α)) (safe : List α)
    (et : Option (List (ErrorRow ι)))
    (h : sift_results spec_data results = Except.ok (safe, et)) :
    et = none ↔ ∀ r ∈ results, ∀ m, r ≠ Except.error m := by
  unfold sift_results at h
  rcases hcol : collect_error_specs spec_data results with e | es
  · rw [hcol] at h
    cases h
  · rw [hcol] at h
    dsimp only at h
    have hiff := collect_ok_iff_nil results spec_data es hcol
    by_cases he : es.isEmpty = true
    · rw [if_pos he] at h
      have het : et = none := by
        cases h
        rfl
      subst het
      simp only [true_iff]
      exact hiff.mp (List.isEmpty_iff.mp he)
    · rw [if_neg he] at h
      by_cases hm : (results.filterMap fun r =>
          match r with
          | Except.error m => some m
          | Except.ok _ => none).length = 1
      · rw [if_pos hm] at h
        have het : et = some (List.zipWith
            (fun s m => { idx := s, missing := false, msg := m }) es
            (results.filterMap fun r =>
              match r with
              | Except.error m => some m
              | Except.ok _ => none)) := by
          cases h
          rfl
        subst het
        constructor
        · intro habs
          cases habs
        · intro hall
          exact absurd (hiff.mpr hall) (by simpa [List.isEmpty_iff] using he)
      · rw [if_neg hm] at h
        cases h

/-- Witness for C8: a single successful result yields an absent error
table, and the iff instantiates there. -/
theorem c8_error_table_none_iff_witness :
    (none : Option (List (ErrorRow Nat))) = none ↔
      ∀ r ∈ [(Except.ok 1 : Except String Nat)], ∀ m, r ≠ Except.error m :=
  c8_error_table_none_iff [5] [Except.ok 1] [1] none (by rfl)

/-! ### Claim C6: combine is associative on final content -/

/-- C6: The combine operation is associative on final content: for all
experiment-output lists A, B, C, combining [A, B, C] directly yields, for
every table name, the same table contents (same rows in the same relative
order) as combining [A, B] first and then combining that result with C. -/
theorem c6_combine_assoc {ρ : Type} (A B C : ExperimentOutputSpec ρ) (k : String) :
    List.lookup k (combine_experiment_outputs [A, B, C]).dataframes
      = List.lookup k
          (combine_experiment_outputs [combine_experiment_outputs [A, B], C]).dataframes := by
  rcases ha : List.lookup k A.dataframes with _ | va <;>
    rcases hb : List.lookup k B.dataframes with _ | vb <;>
      rcases hc : List.lookup k C.dataframes with _ | vc <;>
        simp [combine_experiment_outputs, lookup_transpose, List.filterMap_cons,
          ha, hb, hc]

/-! ### Claim C7: termination of the recursion -/

/-- A non-base-case node sits strictly above max_depth in the tree. -/
theorem not_base_case_pathLen_lt {σ : Type} (p : ScatterGatherInput σ)
    (h : is_base_case p = false) : pathLen p < p.recursion_map.max_depth := by
  unfold is_base_case at h
  unfold pathLen
  cases hp : p.recursion_map.path with
  | none =>
    rw [hp] at h
    simp only [Bool.or_eq_true, Bool.or_eq_false_iff, Bool.false_or, beq_eq_false_iff_ne,
      ne_eq, decide_eq_false_iff_not] at h
    simp only [Option.getD_none, List.length_nil]
    omega
  | some l =>
    rw [hp] at h
    simp only [Bool.or_eq_true, Bool.or_eq_false_iff, beq_eq_false_iff_ne, ne_eq,
      decide_eq_false_iff_not] at h
    simp only [Option.getD_some]
    omega

/-- Once the path length has reached max_depth, the node is a base case. -/
theorem base_case_of_deep {σ : Type} (p : ScatterGatherInput σ)
    (h : p.recursion_map.max_depth ≤ pathLen p) : is_base_case p = true := by
  unfold pathLen at h
  unfold is_base_case
  cases hp : p.recursion_map.path with
  | none =>
    rw [hp] at h
    simp only [Option.getD_none, List.length_nil, Nat.le_zero] at h
    simp [h]
  | some l =>
    rw [hp] at h
    simp only [Option.getD_some] at h
    simp [h]

/-- Every child payload is one level deeper and keeps the parent factor
and max_depth. -/
theorem child_payload_shape {σ : Type} (p : ScatterGatherInput σ)
    (c : ScatterGatherInput σ) (hc : c ∈ create_recursion_payloads p) :
    pathLen c = pathLen p + 1
    ∧ c.recursion_map.max_depth = p.recursion_map.max_depth
    ∧ c.recursion_map.factor = p.recursion_map.factor
    ∧ c.save_errors = false := by
  unfold create_recursion_payloads at hc
  obtain ⟨i, _, rfl⟩ := List.mem_map.mp hc
  refine ⟨?_, rfl, rfl, rfl⟩
  simp [pathLen]

/-- Gathering children succeeds when every child evaluation succeeds. -/
theorem runChildren_isSome {α γ : Type} (f : α → Option γ) (l : List α)
    (h : ∀ a ∈ l, (f a).isSome = true) : (runChildren f l).isSome = true := by
  induction l with
  | nil => simp [runChildren]
  | cons a as ih =>
    obtain ⟨r, hr⟩ := Option.isSome_iff_exists.mp (h a (by simp))
    obtain ⟨rs, hrs⟩ := Option.isSome_iff_exists.mp
      (ih fun x hx => h x (List.mem_cons_of_mem a hx))
    simp [runChildren, hr, hrs]

/-- Fuel max_depth - depth + 1 always suffices: the evaluator never runs
out of fuel, for any branching factor (including factor 1, where the spec
count does not shrink). -/
theorem scatter_gather_total {σ β : Type}
    (run : σ → Except String (ExperimentOutputSpec (Row σ β))) :
    ∀ (fuel : Nat) (p : ScatterGatherInput σ),
      p.recursion_map.max_depth - pathLen p < fuel →
      (scatter_gather run fuel p).isSome = true := by
  intro fuel
  induction fuel with
  | zero =>
    intro p hfuel
    omega
  | succ n ih =>
    intro p hfuel
    cases hb : is_base_case p with
    | true =>
      rcases hre : run_experiments run p with e | g <;>
        simp [scatter_gather, hb, hre, Except.map]
    | false =>
      have hlt := not_base_case_pathLen_lt p hb
      have hch : ∀ c ∈ create_recursion_payloads p, (scatter_gather run n c).isSome = true := by
        intro c hc
        obtain ⟨hp1, hp2, -, -⟩ := child_payload_shape p c hc
        exact ih c (by rw [hp1, hp2]; omega)
      obtain ⟨results, hres⟩ := Option.isSome_iff_exists.mp
        (runChildren_isSome (fun c => scatter_gather run n c) (create_recursion_payloads p) hch)
      rcases hsift : sift_results (create_recursion_payloads p) results with e | pr <;>
        simp [scatter_gather, hb, hres, hsift, Except.map]

/-- C7: For every branching_factor >= 1, every max_depth in [0,10], and
every finite spec list, the recursive scatter_gather evaluation
terminates: each child recursion path is one element longer than that of
its parent, is_base_case becomes true once the path length reaches
max_depth, and the evaluator completes within fuel exceeding
max_depth - depth — including the edge case branching_factor == 1 where
the spec count does not shrink. -/
theorem c7_recursion_terminates {σ β : Type}
    (run : σ → Except String (ExperimentOutputSpec (Row σ β)))
    (p : ScatterGatherInput σ) (fuel : Nat)
    (_hf : 1 ≤ p.recursion_map.factor) (_hd : p.recursion_map.max_depth ≤ 10)
    (hfuel : p.recursion_map.max_depth - pathLen p < fuel) :
    (∀ c ∈ create_recursion_payloads p, pathLen c = pathLen p + 1)
    ∧ (p.recursion_map.max_depth ≤ pathLen p → is_base_case p = true)
    ∧ (scatter_gather run fuel p).isSome = true :=
  ⟨fun c hc => (child_payload_shape p c hc).1,
   base_case_of_deep p,
   scatter_gather_total run fuel p hfuel⟩

/-- Witness for C7 at a concrete tree: 10 specs, factor 3, max_depth 2,
fuel 3. -/
theorem c7_recursion_terminates_witness :
    (1 ≤ pEx10x3.recursion_map.factor) ∧ (pEx10x3.recursion_map.max_depth ≤ 10)
    ∧ ((∀ c ∈ create_recursion_payloads pEx10x3, pathLen c = pathLen pEx10x3 + 1)
      ∧ (pEx10x3.recursion_map.max_depth ≤ pathLen pEx10x3 → is_base_case pEx10x3 = true)
      ∧ (scatter_gather runTriv 3 pEx10x3).isSome = true) :=
  ⟨by decide, by decide,
   c7_recursion_terminates runTriv pEx10x3 3 (by decide) (by decide) (by decide)⟩

/-! ### Claim C1: error propagation to the published root output -/

/-- Updating the "errors" entry in place maps its value. -/
theorem lookup_update_append {ρ : Type} (m : DFDict ρ) (e : DataFrame ρ) :
    List.lookup "errors" (m.map fun kv => if kv.1 == "errors" then (kv.1, kv.2 ++ e) else kv)
      = (List.lookup "errors" m).map fun v => v ++ e := by
  induction m with
  | nil => simp
  | cons kv rest ih =>
    obtain ⟨k, v⟩ := kv
    by_cases hk : k = "errors"
    · subst hk
      simp [lookup_cons, ih]
    · have hkb : (k == "errors") = false := by simpa using hk
      have hke : ¬("errors" = k) := fun hx => hk hx.symm
      simp only [List.map_cons, hkb, Bool.false_eq_true, if_false, lookup_cons,
        if_neg hke, ih]

/-- Lookup skips a prefix in which the key is absent. -/
theorem lookup_append_of_none {ρ : Type} (l₁ l₂ : DFDict ρ) (k : String)
    (h : List.lookup k l₁ = none) :
    List.lookup k (l₁ ++ l₂) = List.lookup k l₂ := by
  induction l₁ with
  | nil => simp
  | cons kv rest ih =>
    obtain ⟨k', v⟩ := kv
    rw [lookup_cons] at h
    by_cases hk : k = k'
    · rw [if_pos hk] at h
      cases h
    · rw [if_neg hk] at h
      rw [List.cons_append, lookup_cons, if_neg hk]
      exact ih h

/-- Key containment in an association list equals lookup success. -/
theorem contains_keys_isSome {ρ : Type} (m : DFDict ρ) (k : String) :
    (m.map Prod.fst).contains k = (List.lookup k m).isSome := by
  induction m with
  | nil => simp
  | cons kv rest ih =>
    obtain ⟨k', v⟩ := kv
    rw [List.map_cons, List.contains_cons, lookup_cons]
    by_cases hk : k = k'
    · have hkb : (k == k') = true := by simpa using hk
      rw [hkb, if_pos hk]
      simp
    · have hkb : (k == k') = false := by simpa using hk
      rw [hkb, if_neg hk, Bool.false_or]
      exact ih

/-- With save_errors=False, publication drops every key containing
"error". -/
theorem lookup_publish_none {ρ : Type} (m : DFDict ρ) (k : String)
    (hk : containsErrorStr k = true) :
    List.lookup k (save_and_upload_parquets m false) = none := by
  unfold save_and_upload_parquets
  induction m with
  | nil => simp
  | cons kv rest ih =>
    obtain ⟨k', v⟩ := kv
    cases hck : containsErrorStr k' with
    | true => simpa [List.filter_cons, hck] using ih
    | false =>
      have hkk : ¬(k = k') := by
        intro hx
        rw [hx, hck] at hk
        cases hk
      rw [List.filter_cons]
      simp only [hck, Bool.not_false, Bool.and_true, Bool.false_and, Bool.not_false,
        if_true, Bool.not_true]
      simpa [lookup_cons, if_neg hkk] using ih

/-- C1 counterexample at a concrete two-level tree: the single child of
rootC1 is a leaf that captures the failure "boom" of spec 1 in its sift
error table, yet the published root result (even with save_errors enabled
at the root) carries no "errors" table at all: the leaf publication dropped
it because children are created with save_errors=False. -/
theorem c1_counterexample :
    create_recursion_payloads rootC1 = [childC1]
    ∧ childC1.save_errors = false
    ∧ run_experiments runC1 childC1 =
        Except.ok
          { success := { dataframes := [("t", [Row.data 0])] }
            errors := some [Row.err { idx := 1, missing := false, msg := "boom" }] }
    ∧ scatter_gather runC1 2 rootC1 =
        some (Except.ok { uris := [("t", [Row.data 0])] })
    ∧ List.lookup "errors" ([("t", [Row.data 0])] : DFDict (Row Nat Nat)) = none :=
  ⟨rfl, rfl, rfl, rfl, rfl⟩

/-- C1 (amended): at every node the merge step does concatenate all
children error DataFrames onto the node-level "errors" table; but
save_and_upload_parquets publishes that table only when that same node has
save_errors set to true, and create_recursion_payloads gives every child
save_errors=False, so error rows captured below a recursion level are
dropped when that level publishes and never reach the published root
output. -/
theorem c1_merge_concatenates_publish_gates {σ β : Type}
    (outs : List (GatheredExperimentRuns σ β)) (p : ScatterGatherInput σ)
    (h : (outs.filterMap fun r => r.errors) ≠ []) :
    List.lookup "errors" (merge_outputs outs)
      = some (((List.lookup "errors"
            (transpose_dataframe_dict (outs.map fun r => r.success.dataframes))).getD [])
          ++ (outs.filterMap fun r => r.errors).flatten)
    ∧ List.lookup "errors" (save_and_upload_parquets (merge_outputs outs) false) = none
    ∧ (∀ c ∈ create_recursion_payloads p, c.save_errors = false) := by
  have hne : (outs.filterMap fun r => r.errors).isEmpty = false := by
    simpa [List.isEmpty_iff] using h
  have hmerge : List.lookup "errors" (merge_outputs outs)
      = some (((List.lookup "errors"
            (transpose_dataframe_dict (outs.map fun r => r.success.dataframes))).getD [])
          ++ (outs.filterMap fun r => r.errors).flatten) := by
    unfold merge_outputs
    dsimp only
    rw [hne]
    simp only [Bool.false_eq_true, if_false]
    cases hct : ((transpose_dataframe_dict (outs.map fun r => r.success.dataframes)).map
        Prod.fst).contains "errors" with
    | true =>
      rw [if_pos rfl, lookup_update_append]
      rw [contains_keys_isSome] at hct
      obtain ⟨v, hv⟩ := Option.isSome_iff_exists.mp hct
      rw [hv]
      rfl
    | false =>
      simp only [Bool.false_eq_true, if_false]
      rw [contains_keys_isSome] at hct
      have hnone : List.lookup "errors"
          (transpose_dataframe_dict (outs.map fun r => r.success.dataframes)) = none := by
        cases hl : List.lookup "errors"
            (transpose_dataframe_dict (outs.map fun r => r.success.dataframes))
        · rfl
        · rw [hl] at hct
          cases hct
      rw [lookup_append_of_none _ _ _ hnone, hnone]
      simp [lookup_cons]
  refine ⟨hmerge, ?_, fun c hc => (child_payload_shape p c hc).2.2.2⟩
  exact lookup_publish_none (merge_outputs outs) "errors" (by decide)

/-- Witness for the amended C1 at a concrete gathered output with one
captured failure. -/
theorem c1_merge_concatenates_publish_gates_witness :
    List.lookup "errors" (merge_outputs outsEx)
      = some (((List.lookup "errors"
            (transpose_dataframe_dict (outsEx.map fun r => r.success.dataframes))).getD [])
          ++ (outsEx.filterMap fun r => r.errors).flatten)
    ∧ List.lookup "errors" (save_and_upload_parquets (merge_outputs outsEx) false) = none
    ∧ (∀ c ∈ create_recursion_payloads rootC1, c.save_errors = false) :=
  c1_merge_concatenates_publish_gates outsEx rootC1 (by decide)

end Scythe
